import Mathlib

/-!
# Verification of the payment reconciliation core (`src/services/paymentService.js`)

Shallow embedding of the payment service of the `non-relational-api`
repository: the payment store is a list of payment rows plus a list of
webhook audit-log rows; the JavaScript functions `updatePaymentStatus`,
`processPayment`, `handleFastlipaWebhook` and `logWebhookData` become pure
Lean functions that thread the store explicitly.  JavaScript exceptions are
modelled with `Except String`; the outbound gateway call and storage faults
are modelled as explicit oracles.  Webhook payload fields are modelled as
`Option String` (a `none` field is an absent or `null` JSON key); JavaScript
truthiness on such a field is `some s` with `s ≠ ""`.
-/

namespace PaymentService

/-- JavaScript truthiness of an optional string field: present and non-empty. -/
def truthy : Option String → Bool
  | some s => s ≠ ""
  | none => false

/-- JavaScript `s.toLowerCase()`, character by character (the same result as
`String.toLower`, stated over the character list so that it evaluates inside
the kernel). -/
def jsToLower (s : String) : String := String.mk (s.data.map Char.toLower)

/-- JavaScript `s.startsWith(pre)`: the first `pre.length` characters of `s`
are exactly `pre`. -/
def jsStartsWith (s pre : String) : Bool := decide (s.data.take pre.data.length = pre.data)

/-- JavaScript `s.substring(n)`: `s` with its first `n` characters removed. -/
def jsSubstring (s : String) (n : Nat) : String := String.mk (s.data.drop n)

/-- The inbound webhook payload shape read by `handleFastlipaWebhook`
(lines 204–226): only the keys the code consults are modelled, each an
optional string (`none` = key absent or `null`). -/
structure WebhookData where
  tranid : Option String := none
  transaction_id : Option String := none
  id : Option String := none
  status : Option String := none
  state : Option String := none
  amount : Option String := none
  number : Option String := none
  phone_number : Option String := none
  deriving DecidableEq, Repr

/-- The gateway `response.data` object as used by `processPayment`
(lines 111–123) and by the `payment_id` check of `updatePaymentStatus`. -/
structure GatewayResp where
  tranid : Option String := none
  transaction_id : Option String := none
  status : Option String := none
  payment_id : Option String := none
  deriving DecidableEq, Repr

/-- The opaque `fastlipa_response` blob stored on a payment row.  The three
shapes actually written by the code: the raw gateway response (line 115),
the `{error: message}` blob of the failure path (line 132), and the
`{webhookData, externalPaymentId, fastlipaStatus, processedAt}` blob built by
the webhook reconciler (lines 302–307). -/
inductive Blob where
  | gatewayResp (r : GatewayResp)
  | errorBlob (message : String)
  | webhookBlob (webhookData : WebhookData) (externalPaymentId : Option String)
      (fastlipaStatus : String) (processedAt : Nat)
  deriving DecidableEq, Repr

/-- Reading the JavaScript property `payment_id` off a blob: only a raw
gateway response can carry that key; the error blob and the webhook blob
have no `payment_id` key (the reconciler stores the transaction id under the
key `externalPaymentId` instead). -/
def Blob.payment_id : Blob → Option String
  | .gatewayResp r => r.payment_id
  | .errorBlob _ => none
  | .webhookBlob _ _ _ _ => none

/-- A row of the `payments` table (the columns this core reads or writes). -/
structure Payment where
  id : Nat
  payment_link_id : String
  amount : Int
  phone_number : Option String := none
  status : String
  external_payment_id : Option String := none
  fastlipa_response : Option Blob := none
  created_at : Nat
  updated_at : Nat
  paid_at : Option Nat := none
  deriving DecidableEq, Repr

/-- A row of the `webhook_logs` audit table (see `logWebhookData`,
lines 385–397). -/
structure WebhookLog where
  payment_id : Option Nat
  webhook_data : WebhookData
  status : String
  error_message : Option String
  created_at : Nat
  deriving DecidableEq, Repr

/-- The store: the `payments` table and the `webhook_logs` table.  Newly
inserted log rows are put at the head of the list. -/
structure DB where
  payments : List Payment
  webhook_logs : List WebhookLog
  deriving DecidableEq, Repr

/-! ## Field extraction with fallbacks (lines 195–226) -/

/-- Transaction-id extraction: try `tranid`, then `transaction_id`, then
`id`; a falsy value falls through to the next key; all falsy leaves it null. -/
def extractTransactionId (w : WebhookData) : Option String :=
  if truthy w.tranid then w.tranid
  else if truthy w.transaction_id then w.transaction_id
  else if truthy w.id then w.id
  else none

/-- Raw-status extraction: `status` then `state`, lower-cased; the variable
is initialised to the sentinel `"unknown"` and keeps it when both keys are
falsy (lines 197, 212–216). -/
def extractRawStatus (w : WebhookData) : String :=
  if truthy w.status then jsToLower (w.status.getD "")
  else if truthy w.state then jsToLower (w.state.getD "")
  else "unknown"

/-- Phone-number extraction: `number` then `phone_number`; a falsy value
falls through (lines 222–226). -/
def extractPhoneNumber (w : WebhookData) : Option String :=
  if truthy w.number then w.number
  else if truthy w.phone_number then w.phone_number
  else none

/-- The `switch (status)` vocabulary of lines 236–259 mapping the raw
(lower-cased) gateway status to the internal status. -/
def mapFastlipaStatus (status : String) : String :=
  if status = "success" ∨ status = "successful" ∨ status = "completed" ∨ status = "paid" then
    "completed"
  else if status = "failed" ∨ status = "error" ∨ status = "cancelled" ∨ status = "canceled" then
    "failed"
  else if status = "pending" ∨ status = "processing" ∨ status = "initiated" then
    "processing"
  else
    "pending"

/-- The raw status as an abstract optional value: `some` of the lower-cased
extracted string when one of the keys `status`/`state` is truthy, `none`
when the raw status is absent.  Used to state the table of the specification. -/
def rawStatusOpt (w : WebhookData) : Option String :=
  if truthy w.status then some (jsToLower (w.status.getD ""))
  else if truthy w.state then some (jsToLower (w.state.getD ""))
  else none

/-- The status vocabulary table exactly as the specification states it
(§4.3 step 2), for refinement comparison against the code function
`mapFastlipaStatus`: success/successful/completed/paid → completed;
failed/error/cancelled/canceled → failed; pending/processing/initiated →
processing; anything else or absent → pending. -/
def specStatusTable : Option String → String
  | none => "pending"
  | some s =>
    if s ∈ ["success", "successful", "completed", "paid"] then "completed"
    else if s ∈ ["failed", "error", "cancelled", "canceled"] then "failed"
    else if s ∈ ["pending", "processing", "initiated"] then "processing"
    else "pending"

/-! ## The shared status-update primitive (`updatePaymentStatus`, lines 142–180) -/

/-- The effect of `updatePaymentStatus` on one matching row: set `status`,
`fastlipa_response` and `updated_at`; additionally `paid_at` when the new
status is `"completed"` (lines 150–153); additionally `external_payment_id`
when the blob is present and its `payment_id` property is truthy
(lines 155–158). -/
def applyUpdate (now : Nat) (status : String) (blob : Option Blob) (p : Payment) : Payment :=
  let p1 := { p with status := status, fastlipa_response := blob, updated_at := now }
  let p2 := if status = "completed" then { p1 with paid_at := some now } else p1
  match blob with
  | some b => if truthy b.payment_id then { p2 with external_payment_id := b.payment_id } else p2
  | none => p2

/-- The function `updatePaymentStatus(paymentLinkId, status, fastlipaResponse)`:
its SQL `UPDATE … WHERE payment_link_id = $n RETURNING *` updates every
matching row and hands back `rows[0]` — `none` (JavaScript `undefined`) when
no row matched; no error is raised in that case. -/
def updatePaymentStatus (now : Nat) (db : DB) (paymentLinkId : String) (status : String)
    (blob : Option Blob) : DB × Option Payment :=
  let payments := db.payments.map
    (fun p => if p.payment_link_id = paymentLinkId then applyUpdate now status blob p else p)
  let returned := payments.filter (fun p => p.payment_link_id = paymentLinkId)
  ({ db with payments := payments }, returned.head?)

/-! ## Audit logging (`logWebhookData`, lines 383–402) -/

/-- The function `logWebhookData(webhookData, status, paymentId, error)`:
insert one row into `webhook_logs`; the new row is put at the head of the
list. -/
def logWebhookData (now : Nat) (db : DB) (w : WebhookData) (status : String)
    (paymentId : Option Nat) (error : Option String) : DB :=
  { db with webhook_logs :=
      { payment_id := paymentId, webhook_data := w, status := status,
        error_message := error, created_at := now } :: db.webhook_logs }

/-! ## Payment lookup inside the reconciler (lines 261–280) -/

/-- The query `SELECT * FROM payments WHERE external_payment_id = $1`, taking
`rows[0]`. -/
def findByExtId (db : DB) (tid : String) : Option Payment :=
  (db.payments.filter (fun p => p.external_payment_id = some tid)).head?

/-- Fold selecting a row with maximal `created_at` (the `ORDER BY created_at
DESC LIMIT 1` of the phone lookup; ties broken arbitrarily, as in SQL). -/
def newestOf : List Payment → Option Payment
  | [] => none
  | p :: ps =>
    match newestOf ps with
    | none => some p
    | some q => if p.created_at < q.created_at then some q else some p

/-- The query `SELECT * FROM payments WHERE phone_number = $1 AND created_at
> NOW() - INTERVAL one hour ORDER BY created_at DESC LIMIT 1` (times in
seconds, so the window is `created_at + 3600 > now`). -/
def findByPhone (now : Nat) (db : DB) (ph : String) : Option Payment :=
  newestOf (db.payments.filter (fun p => p.phone_number = some ph ∧ now < p.created_at + 3600))

/-- Strategy (a): `if (transactionId) { … external_payment_id lookup … }`
(lines 264–269); `none` when no transaction id was extracted. -/
def lookupById (db : DB) (w : WebhookData) : Option Payment :=
  match extractTransactionId w with
  | some tid => findByExtId db tid
  | none => none

/-- Strategy (b): `if (!payment && phoneNumber) { … phone lookup … }`
(lines 271–280); `none` when no phone number was extracted. -/
def lookupByPhone (now : Nat) (db : DB) (w : WebhookData) : Option Payment :=
  match extractPhoneNumber w with
  | some ph => findByPhone now db ph
  | none => none

/-- The two-strategy lookup of the reconciler: by extracted transaction id
first, then — when that found nothing — by extracted phone number within the
last hour. -/
def lookupPayment (now : Nat) (db : DB) (w : WebhookData) : Option Payment :=
  match lookupById db w with
  | some p => some p
  | none => lookupByPhone now db w

/-! ## The webhook reconciler (`handleFastlipaWebhook`, lines 187–337) -/

/-- Storage-fault oracle: which of the three payment-table
queries raises (lookup by external id, lookup by phone, status update).
The audit-log insert itself is modelled as always succeeding, matching the
best-effort swallow the code makes of log failures. -/
structure Faults where
  q1 : Bool := false
  q2 : Bool := false
  upd : Bool := false
  deriving DecidableEq, Repr

/-- The fault-free oracle. -/
def noFaults : Faults := {}

/-- The `receivedData` object of the no-match response (line 291). -/
structure ReceivedData where
  transactionId : Option String
  phoneNumber : Option String
  status : String
  deriving DecidableEq, Repr

/-- The return object of the reconciler; fields absent from a branch are `none`. -/
structure WebhookResponse where
  success : Bool
  message : String
  receivedData : Option ReceivedData := none
  paymentId : Option Nat := none
  previousStatus : Option String := none
  newStatus : Option String := none
  transactionId : Option String := none
  deriving DecidableEq, Repr

/-- `handleFastlipaWebhook(webhookData, req)`: extraction, status
normalization, two-strategy lookup, idempotent update, audit log.  A raised
storage error is caught, logged with outcome `error` and a null payment id,
and rethrown (lines 329–336); `Except.error` is the rethrown exception. -/
def handleFastlipaWebhook (f : Faults) (now : Nat) (db : DB) (w : WebhookData) :
    DB × Except String WebhookResponse :=
  let transactionId := extractTransactionId w
  let status := extractRawStatus w
  let phoneNumber := extractPhoneNumber w
  let internalStatus := mapFastlipaStatus status
  if transactionId.isSome && f.q1 then
    (logWebhookData now db w "error" none (some "storage fault"), .error "storage fault")
  else
    let byId := lookupById db w
    if byId.isNone && phoneNumber.isSome && f.q2 then
      (logWebhookData now db w "error" none (some "storage fault"), .error "storage fault")
    else
      let payment := match byId with
        | some p => some p
        | none => lookupByPhone now db w
      match payment with
      | none =>
        (logWebhookData now db w "no_matching_payment" none none,
         .ok { success := false, message := "No matching payment found",
               receivedData := some ⟨transactionId, phoneNumber, status⟩ })
      | some p =>
        if p.status ≠ internalStatus && f.upd then
          (logWebhookData now db w "error" none (some "storage fault"), .error "storage fault")
        else
          let db1 := if p.status ≠ internalStatus then
              (updatePaymentStatus now db p.payment_link_id internalStatus
                (some (.webhookBlob w transactionId status now))).1
            else db
          (logWebhookData now db1 w "processed" (some p.id) none,
           .ok { success := true, message := "Webhook processed successfully",
                 paymentId := some p.id, previousStatus := some p.status,
                 newStatus := some internalStatus, transactionId := transactionId })

/-! ## The payment processor (`processPayment`, lines 84–137) -/

/-- The caller-supplied payment data the processor reads. -/
structure PaymentData where
  paymentLinkId : String
  phoneNumber : String
  amount : Int
  customerName : String
  deriving DecidableEq, Repr

/-- The request body sent to the create-transaction endpoint of the gateway. -/
structure FastlipaRequest where
  number : String
  amount : Int
  name : String
  deriving DecidableEq, Repr

/-- The success return object of the processor (lines 118–123). -/
structure ProcessResult where
  success : Bool
  paymentId : Option String
  status : String
  instructions : String
  deriving DecidableEq, Repr

/-- The `paymentPayload` the processor sends for given payment data: the
phone number loses its first 3 characters when it starts with `"255"`
(lines 87–97), the amount and customer name pass through. -/
def fastlipaRequestOf (pd : PaymentData) : FastlipaRequest :=
  { number := if jsStartsWith pd.phoneNumber "255" then jsSubstring pd.phoneNumber 3 else pd.phoneNumber,
    amount := pd.amount, name := pd.customerName }

/-- `processPayment(paymentData)` with the axios call modelled by the oracle
`gw` (an `Except` of the error message or the parsed `response.data`).
On success the payment moves to `processing` with the raw response as blob;
on any gateway failure the payment moves to `failed` with blob
`{error: message}` and the error is rethrown with the
`Payment processing failed: ` prefix (lines 125–136). -/
def processPayment (gw : FastlipaRequest → Except String GatewayResp) (now : Nat) (db : DB)
    (pd : PaymentData) : DB × Except String ProcessResult :=
  let paymentPayload := fastlipaRequestOf pd
  match gw paymentPayload with
  | .ok resp =>
    let db1 := (updatePaymentStatus now db pd.paymentLinkId "processing"
      (some (.gatewayResp resp))).1
    (db1, .ok { success := true,
                paymentId := if truthy resp.tranid then resp.tranid else resp.transaction_id,
                status := if truthy resp.status then resp.status.getD "" else "pending",
                instructions := "Payment initiated successfully. Use the transaction ID to check status." })
  | .error m =>
    let db1 := (updatePaymentStatus now db pd.paymentLinkId "failed"
      (some (.errorBlob m))).1
    (db1, .error ("Payment processing failed: " ++ m))

/-! ## Concrete sample data used by witnesses and counterexamples -/

/-- A stored pending payment with link id `"L1"` and phone `"0712"`. -/
def samplePayment : Payment :=
  { id := 1, payment_link_id := "L1", amount := 1000, phone_number := some "0712",
    status := "pending", created_at := 100, updated_at := 100 }

/-- A store holding only `samplePayment` and an empty audit trail. -/
def sampleDB : DB := { payments := [samplePayment], webhook_logs := [] }

/-- The sample payment after completion. -/
def sampleCompleted : Payment := { samplePayment with status := "completed" }

/-- A store holding only the completed sample payment. -/
def sampleDBCompleted : DB := { payments := [sampleCompleted], webhook_logs := [] }

/-- A webhook payload matching nothing in `sampleDB` (fresh transaction id,
unknown phone). -/
def wNoMatch : WebhookData :=
  { tranid := some "TX", number := some "0799", status := some "success" }

/-- A success payload matching `samplePayment` by phone, carrying transaction
id `"TX9"`. -/
def wMismatch : WebhookData :=
  { tranid := some "TX9", number := some "0712", status := some "success" }

/-- A success payload matching the sample payment by phone only. -/
def wCompleted : WebhookData := { number := some "0712", status := some "success" }

/-- A payload whose `tranid`, `status` and `number` keys are all present but
falsy (empty strings), with truthy fallback keys where relevant. -/
def wFalsy : WebhookData :=
  { tranid := some "", transaction_id := some "T2", status := some "",
    number := some "", phone_number := some "0799" }

/-- A gateway oracle that always fails with message `"boom"`. -/
def gwFail : FastlipaRequest → Except String GatewayResp := fun _ => .error "boom"

/-- Sample payment data targeting `samplePayment`. -/
def samplePD : PaymentData :=
  { paymentLinkId := "L1", phoneNumber := "0712", amount := 1000, customerName := "N" }

end PaymentService

namespace PaymentService

/-! ## Supporting lemmas -/

/-- The code table and the specification table agree on every present raw
status string. -/
lemma mapFastlipaStatus_eq_specTable (s : String) :
    mapFastlipaStatus s = specStatusTable (some s) := by
  simp only [mapFastlipaStatus, specStatusTable, List.mem_cons, List.not_mem_nil, or_false]

/-- The reconciler under the fault-free oracle, expressed through
`lookupPayment`. -/
lemma handleFastlipaWebhook_noFaults (now : Nat) (db : DB) (w : WebhookData) :
    handleFastlipaWebhook noFaults now db w =
      match lookupPayment now db w with
      | none =>
        (logWebhookData now db w "no_matching_payment" none none,
         .ok { success := false, message := "No matching payment found",
               receivedData := some ⟨extractTransactionId w, extractPhoneNumber w,
                 extractRawStatus w⟩ })
      | some p =>
        let internalStatus := mapFastlipaStatus (extractRawStatus w)
        let db1 := if p.status ≠ internalStatus then
            (updatePaymentStatus now db p.payment_link_id internalStatus
              (some (.webhookBlob w (extractTransactionId w) (extractRawStatus w) now))).1
          else db
        (logWebhookData now db1 w "processed" (some p.id) none,
         .ok { success := true, message := "Webhook processed successfully",
               paymentId := some p.id, previousStatus := some p.status,
               newStatus := some internalStatus, transactionId := extractTransactionId w }) := by
  unfold handleFastlipaWebhook lookupPayment noFaults
  simp only [Bool.and_false]
  rcases h : lookupById db w with _ | p <;> simp [h]

end PaymentService

namespace PaymentService

/-- C1: for every webhook payload, the raw status extracted by the reconciler
(lower-cased, `"unknown"` sentinel when absent) is normalized by the
`switch` table exactly as the specification vocabulary prescribes:
success/successful/completed/paid ↦ completed; failed/error/cancelled/
canceled ↦ failed; pending/processing/initiated ↦ processing; anything else
or absent ↦ pending. -/
theorem reconciler_status_vocabulary (w : WebhookData) :
    mapFastlipaStatus (extractRawStatus w) = specStatusTable (rawStatusOpt w) := by
  unfold extractRawStatus rawStatusOpt
  split_ifs with h1 h2
  · exact mapFastlipaStatus_eq_specTable _
  · exact mapFastlipaStatus_eq_specTable _
  · decide

/-- C7: the payment processor sends the gateway the input phone number with
exactly its first 3 characters removed when it starts with `"255"` and
unchanged otherwise; in particular `"255712345678"` is sent as
`"712345678"` and `"0712345678"` is sent unchanged. -/
theorem processor_phone_normalization :
    (∀ pd : PaymentData, (fastlipaRequestOf pd).number =
        if jsStartsWith pd.phoneNumber "255" then jsSubstring pd.phoneNumber 3
        else pd.phoneNumber) ∧
    (fastlipaRequestOf
      { paymentLinkId := "L", phoneNumber := "255712345678",
        amount := 1000, customerName := "A" }).number = "712345678" ∧
    (fastlipaRequestOf
      { paymentLinkId := "L", phoneNumber := "0712345678",
        amount := 1000, customerName := "A" }).number = "0712345678" :=
  ⟨fun _ => rfl, by decide, by decide⟩

/-- C9: every status update writes `paid_at := now` exactly when the new
status is `completed` and leaves `paid_at` untouched otherwise, always
refreshes `updated_at`, and touches exactly the rows keyed by the link id. -/
theorem updateStatus_paid_at_iff_completed (now : Nat) (db : DB) (linkId status : String)
    (blob : Option Blob) (p : Payment) :
    ((applyUpdate now status blob p).paid_at =
        if status = "completed" then some now else p.paid_at) ∧
    (applyUpdate now status blob p).updated_at = now ∧
    (updatePaymentStatus now db linkId status blob).1.payments =
      db.payments.map
        (fun q => if q.payment_link_id = linkId then applyUpdate now status blob q else q) := by
  refine ⟨?_, ?_, rfl⟩ <;>
    · unfold applyUpdate
      cases blob with
      | none => split_ifs <;> rfl
      | some b => cases hb : truthy b.payment_id <;> split_ifs <;> simp [hb]

/-- C2: every inbound webhook call — matched, unmatched, or aborted by a
storage fault at any of the three payment-table queries — appends exactly one
`webhook_logs` row, whose outcome is `processed` on a successful match,
`no_matching_payment` on a non-exceptional miss, and `error` when an error is
propagated to the caller. -/
theorem webhook_exactly_one_audit_row (f : Faults) (now : Nat) (db : DB) (w : WebhookData) :
    (handleFastlipaWebhook f now db w).1.webhook_logs.length = db.webhook_logs.length + 1 ∧
    (handleFastlipaWebhook f now db w).1.webhook_logs.tail = db.webhook_logs ∧
    (handleFastlipaWebhook f now db w).1.webhook_logs.head?.map (fun l => l.status) =
      some (match (handleFastlipaWebhook f now db w).2 with
            | .ok r => if r.success then "processed" else "no_matching_payment"
            | .error _ => "error") := by
  rcases hB : lookupById db w with _ | p <;>
    rcases hP : lookupByPhone now db w with _ | q <;>
      unfold handleFastlipaWebhook <;>
        simp only [hB, hP] <;>
          split_ifs <;>
            simp [logWebhookData, updatePaymentStatus]

/-- C3: a webhook payload whose extracted transaction id matches no stored
`external_payment_id` and whose extracted phone number matches no payment of
the last hour mutates no payment row, writes exactly one
`no_matching_payment` audit row with a null payment reference, and returns
the non-exceptional no-match result carrying the extracted data. -/
theorem webhook_no_match (now : Nat) (db : DB) (w : WebhookData)
    (hT : ∀ p ∈ db.payments, (extractTransactionId w).isSome →
        ¬ p.external_payment_id = extractTransactionId w)
    (hP : ∀ p ∈ db.payments, (extractPhoneNumber w).isSome →
        ¬ (p.phone_number = extractPhoneNumber w ∧ now < p.created_at + 3600)) :
    handleFastlipaWebhook noFaults now db w =
      ({ payments := db.payments,
         webhook_logs :=
           { payment_id := none, webhook_data := w, status := "no_matching_payment",
             error_message := none, created_at := now } :: db.webhook_logs },
       .ok { success := false, message := "No matching payment found",
             receivedData := some ⟨extractTransactionId w, extractPhoneNumber w,
               extractRawStatus w⟩ }) := by
  have hId : lookupById db w = none := by
    unfold lookupById
    rcases h : extractTransactionId w with _ | tid
    · rfl
    · have hnil : List.filter (fun p => decide (p.external_payment_id = some tid))
          db.payments = [] := by
        refine List.filter_eq_nil_iff.mpr ?_
        intro p hp
        have hne := hT p hp (by rw [h]; rfl)
        rw [h] at hne
        simpa using hne
      dsimp only
      unfold findByExtId
      rw [hnil]
      rfl
  have hPh : lookupByPhone now db w = none := by
    unfold lookupByPhone
    rcases h : extractPhoneNumber w with _ | ph
    · rfl
    · have hnil : List.filter
          (fun p => decide (p.phone_number = some ph ∧ now < p.created_at + 3600))
          db.payments = [] := by
        refine List.filter_eq_nil_iff.mpr ?_
        intro p hp
        have hne := hP p hp (by rw [h]; rfl)
        rw [h] at hne
        simpa using hne
      dsimp only
      unfold findByPhone
      rw [hnil]
      rfl
  have hL : lookupPayment now db w = none := by
    unfold lookupPayment
    rw [hId, hPh]
  rw [handleFastlipaWebhook_noFaults, hL]
  simp [logWebhookData]

/-- Closed instance for C3: the sample store holds one pending payment with
phone `"0712"` and no external id; the payload `wNoMatch` (transaction id
`"TX"`, phone `"0799"`) matches nothing, so the store keeps its payment list,
gains one `no_matching_payment` audit row, and the call returns the no-match
result. -/
theorem webhook_no_match_witness :
    handleFastlipaWebhook noFaults 200 sampleDB wNoMatch =
      ({ payments := sampleDB.payments,
         webhook_logs :=
           { payment_id := none, webhook_data := wNoMatch, status := "no_matching_payment",
             error_message := none, created_at := 200 } :: sampleDB.webhook_logs },
       .ok { success := false, message := "No matching payment found",
             receivedData := some ⟨extractTransactionId wNoMatch, extractPhoneNumber wNoMatch,
               extractRawStatus wNoMatch⟩ }) :=
  webhook_no_match 200 sampleDB wNoMatch (by decide) (by decide)

end PaymentService

namespace PaymentService

/-- The lookup strategies read only the `payments` table, never the audit
log. -/
lemma lookupPayment_payments_only (now : Nat) (d d' : DB) (w : WebhookData)
    (h : d.payments = d'.payments) : lookupPayment now d w = lookupPayment now d' w := by
  unfold lookupPayment lookupById lookupByPhone findByExtId findByPhone
  rw [h]

/-- C4: when the matched payment already carries the normalized internal
status, the reconciler leaves every payment row unchanged and still writes a
`processed` audit row; delivering the same payload a second time again
mutates nothing and yields a second `processed` audit row. -/
theorem webhook_idempotent_redelivery (now : Nat) (db : DB) (w : WebhookData) (p : Payment)
    (h1 : lookupPayment now db w = some p)
    (h2 : p.status = mapFastlipaStatus (extractRawStatus w)) :
    (handleFastlipaWebhook noFaults now db w).1.payments = db.payments ∧
    (handleFastlipaWebhook noFaults now db w).1.webhook_logs =
      { payment_id := some p.id, webhook_data := w, status := "processed",
        error_message := none, created_at := now } :: db.webhook_logs ∧
    (handleFastlipaWebhook noFaults now db w).2 =
      .ok { success := true, message := "Webhook processed successfully",
            paymentId := some p.id, previousStatus := some p.status,
            newStatus := some p.status, transactionId := extractTransactionId w } ∧
    (handleFastlipaWebhook noFaults now
        (handleFastlipaWebhook noFaults now db w).1 w).1.payments = db.payments ∧
    (handleFastlipaWebhook noFaults now
        (handleFastlipaWebhook noFaults now db w).1 w).1.webhook_logs =
      { payment_id := some p.id, webhook_data := w, status := "processed",
        error_message := none, created_at := now } ::
        { payment_id := some p.id, webhook_data := w, status := "processed",
          error_message := none, created_at := now } :: db.webhook_logs := by
  have key : ∀ d : DB, lookupPayment now d w = some p →
      handleFastlipaWebhook noFaults now d w =
        ({ payments := d.payments,
           webhook_logs :=
             { payment_id := some p.id, webhook_data := w, status := "processed",
               error_message := none, created_at := now } :: d.webhook_logs },
         .ok { success := true, message := "Webhook processed successfully",
               paymentId := some p.id, previousStatus := some p.status,
               newStatus := some p.status, transactionId := extractTransactionId w }) := by
    intro d hd
    rw [handleFastlipaWebhook_noFaults, hd]
    rw [← h2]
    simp [logWebhookData]
  have e1 := key db h1
  have h1b : lookupPayment now (handleFastlipaWebhook noFaults now db w).1 w = some p := by
    rw [← h1]
    apply lookupPayment_payments_only
    rw [e1]
  have e2 := key (handleFastlipaWebhook noFaults now db w).1 h1b
  refine ⟨by rw [e1], by rw [e1], by rw [e1], by rw [e2, e1], by rw [e2, e1]⟩

/-- Closed instance for C4: delivering a success payload for the
already-completed sample payment leaves the payment table unchanged and
appends one `processed` audit row. -/
theorem webhook_idempotent_redelivery_witness :
    (handleFastlipaWebhook noFaults 200 sampleDBCompleted wCompleted).1.payments =
      sampleDBCompleted.payments ∧
    (handleFastlipaWebhook noFaults 200 sampleDBCompleted wCompleted).1.webhook_logs =
      { payment_id := some sampleCompleted.id, webhook_data := wCompleted,
        status := "processed", error_message := none, created_at := 200 } ::
        sampleDBCompleted.webhook_logs :=
  ⟨(webhook_idempotent_redelivery 200 sampleDBCompleted wCompleted sampleCompleted
      (by decide) (by decide)).1,
   (webhook_idempotent_redelivery 200 sampleDBCompleted wCompleted sampleCompleted
      (by decide) (by decide)).2.1⟩

/-- Refutation of the claim that `updatePaymentStatus` fails with a
`PaymentNotFound` error when no row matches the link id: on an empty store
the call returns normally, handing back the unchanged store and `none`
(JavaScript `undefined`) instead of raising anything — the embedding is
total because the source has no not-found check at all. -/
theorem updateStatus_missing_link_counterexample :
    updatePaymentStatus 0 { payments := [], webhook_logs := [] } "missing-link" "completed"
      none = ({ payments := [], webhook_logs := [] }, none) := by
  decide

/-- C5 (amended): a call to `updatePaymentStatus` whose link id matches no
stored payment returns normally with the store unchanged and `none` as the
returned row; no `PaymentNotFound` error exists in the code. -/
theorem updateStatus_missing_link (now : Nat) (db : DB) (linkId status : String)
    (blob : Option Blob) (h : ∀ p ∈ db.payments, ¬ p.payment_link_id = linkId) :
    updatePaymentStatus now db linkId status blob = (db, none) := by
  have hmap : db.payments.map
      (fun p => if p.payment_link_id = linkId then applyUpdate now status blob p else p) =
      db.payments := by
    have hcg : ∀ p ∈ db.payments,
        (if p.payment_link_id = linkId then applyUpdate now status blob p else p) = p := by
      intro p hp
      rw [if_neg (h p hp)]
    exact (List.map_congr_left hcg).trans (List.map_id _)
  have hfil : db.payments.filter (fun p => decide (p.payment_link_id = linkId)) = [] := by
    refine List.filter_eq_nil_iff.mpr ?_
    intro p hp
    simpa using h p hp
  unfold updatePaymentStatus
  dsimp only
  rw [hmap, hfil]
  rfl

/-- Closed instance for C5 (amended): updating a nonexistent link against the
sample store is a no-op returning `none`. -/
theorem updateStatus_missing_link_witness :
    updatePaymentStatus 7 sampleDB "nope" "failed" none = (sampleDB, none) :=
  updateStatus_missing_link 7 sampleDB "nope" "failed" none (by decide)

/-- C6 (code bug): the webhook reconciler attaches the extracted transaction
id under the blob key `externalPaymentId`, but `updatePaymentStatus` only
persists a blob key named `payment_id`; hence after a matched webhook carrying
transaction id `"TX9"` completes the sample payment, its
`external_payment_id` column is still null — the update and the full
reconciler both fail to persist the id the claim says they persist. -/
theorem webhook_external_id_not_persisted :
    (updatePaymentStatus 200 sampleDB "L1" "completed"
        (some (.webhookBlob wMismatch (some "TX9") "success" 200))).1.payments.map
      (fun p => p.external_payment_id) = [none] ∧
    (handleFastlipaWebhook noFaults 200 sampleDB wMismatch).1.payments.map
      (fun p => (p.status, p.external_payment_id)) = [("completed", none)] ∧
    (handleFastlipaWebhook noFaults 200 sampleDB wMismatch).2 =
      .ok { success := true, message := "Webhook processed successfully",
            paymentId := some 1, previousStatus := some "pending",
            newStatus := some "completed", transactionId := some "TX9" } :=
  ⟨by decide, by decide, by rfl⟩

/-- C8: whenever the gateway call fails, `processPayment` first transitions
every row of the target link to `failed` with response blob `{error: m}` and
then rethrows the failure (prefixed message) to the caller — the failure is
never swallowed. -/
theorem processPayment_gateway_failure (gw : FastlipaRequest → Except String GatewayResp)
    (now : Nat) (db : DB) (pd : PaymentData) (m : String)
    (h : gw (fastlipaRequestOf pd) = .error m) :
    processPayment gw now db pd =
      ((updatePaymentStatus now db pd.paymentLinkId "failed" (some (.errorBlob m))).1,
       .error ("Payment processing failed: " ++ m)) ∧
    ∀ p ∈ (processPayment gw now db pd).1.payments, p.payment_link_id = pd.paymentLinkId →
      p.status = "failed" ∧ p.fastlipa_response = some (.errorBlob m) := by
  have e : processPayment gw now db pd =
      ((updatePaymentStatus now db pd.paymentLinkId "failed" (some (.errorBlob m))).1,
       .error ("Payment processing failed: " ++ m)) := by
    unfold processPayment
    dsimp only
    rw [h]
  refine ⟨e, ?_⟩
  intro p hp hlink
  rw [e] at hp
  simp only [updatePaymentStatus] at hp
  rcases List.mem_map.mp hp with ⟨q, hq, rfl⟩
  by_cases hql : q.payment_link_id = pd.paymentLinkId
  · rw [if_pos hql]
    exact ⟨rfl, rfl⟩
  · rw [if_neg hql] at hlink
    exact absurd hlink hql

/-- Closed instance for C8: with an always-failing gateway, processing the
sample payment marks it failed with blob `{error: "boom"}` and rethrows. -/
theorem processPayment_gateway_failure_witness :
    processPayment gwFail 9 sampleDB samplePD =
      ((updatePaymentStatus 9 sampleDB samplePD.paymentLinkId "failed"
          (some (.errorBlob "boom"))).1,
       .error ("Payment processing failed: " ++ "boom")) ∧
    ∀ p ∈ (processPayment gwFail 9 sampleDB samplePD).1.payments,
      p.payment_link_id = samplePD.paymentLinkId →
        p.status = "failed" ∧ p.fastlipa_response = some (.errorBlob "boom") :=
  processPayment_gateway_failure gwFail 9 sampleDB samplePD "boom" rfl

/-- C10: a falsy value under an extraction key is treated as absent — the
next fallback key is consulted: with `tranid` falsy the transaction id comes
from `transaction_id`/`id`; with `status` and `state` both falsy the raw
status stays at its sentinel and normalizes to `pending`; with `number`
falsy the phone comes from `phone_number`, which is what the phone lookup
strategy then uses. -/
theorem extraction_falsy_fallback :
    (∀ w : WebhookData, truthy w.tranid = false →
        extractTransactionId w =
          if truthy w.transaction_id then w.transaction_id
          else if truthy w.id then w.id
          else none) ∧
    (∀ w : WebhookData, truthy w.status = false → truthy w.state = false →
        extractRawStatus w = "unknown" ∧ mapFastlipaStatus (extractRawStatus w) = "pending") ∧
    (∀ w : WebhookData, truthy w.number = false →
        extractPhoneNumber w = if truthy w.phone_number then w.phone_number else none) ∧
    extractTransactionId { tranid := some "", transaction_id := some "T" } = some "T" ∧
    extractPhoneNumber { number := some "", phone_number := some "0712" } = some "0712" ∧
    lookupPayment 200 sampleDB { number := some "", phone_number := some "0712" } =
      some samplePayment := by
  refine ⟨?_, ?_, ?_, by decide, by decide, by decide⟩
  · intro w h
    simp [extractTransactionId, h]
  · intro w h1 h2
    have e : extractRawStatus w = "unknown" := by simp [extractRawStatus, h1, h2]
    refine ⟨e, ?_⟩
    rw [e]
    decide
  · intro w h
    simp [extractPhoneNumber, h]

/-- Closed instance for C10: on the payload `wFalsy` — whose `tranid`,
`status` and `number` keys are present but empty — extraction falls through
to `transaction_id`, the status sentinel, and `phone_number`. -/
theorem extraction_falsy_fallback_witness :
    extractTransactionId wFalsy =
      (if truthy wFalsy.transaction_id then wFalsy.transaction_id
       else if truthy wFalsy.id then wFalsy.id
       else none) ∧
    (extractRawStatus wFalsy = "unknown" ∧
      mapFastlipaStatus (extractRawStatus wFalsy) = "pending") ∧
    extractPhoneNumber wFalsy =
      (if truthy wFalsy.phone_number then wFalsy.phone_number else none) :=
  ⟨extraction_falsy_fallback.1 wFalsy (by decide),
   extraction_falsy_fallback.2.1 wFalsy (by decide) (by decide),
   extraction_falsy_fallback.2.2.1 wFalsy (by decide)⟩

end PaymentService
